/-
Verification of the roommate-matching pages' core logic:
the profile match filter (`Profiles` in src/src/pages/manage.tsx,
lines 262–313) and the membership action validator (the `disabled`
conditions of the Remove / Delete / Leave buttons, lines 56–70 and
121–141 of the same file).

The embedding is shallow: TypeScript optional fields become `Option`,
JavaScript truthiness of nullable enum strings becomes an explicit
`jsTruthyStr`, `??` becomes `Option.getD`, `String.prototype.includes`
becomes substring containment on character lists, and
`Array.prototype.filter` becomes `List.filter`.
-/
import Mathlib

set_option maxHeartbeats 1000000

namespace Roomies

/-- The `user` relation embedded in each profile record (fields used by the
filter: `name` and `email`, both nullable; `image` is nullable too). -/
structure UserInfo where
  name : Option String
  email : Option String
  image : Option String
deriving DecidableEq, Repr

/-- A profile record as consumed by the filter in `Profiles`
(src/src/pages/manage.tsx).  Enum-valued fields are represented by their
serialized (string) enum member names; `assigned_sex`, `day_volume`,
`night_volume` and `status` are nullable (the filter guards them with `!!`),
while `school` is non-nullable (line 311 calls
`profile.school.toLowerCase()` without a guard). -/
structure Profile where
  id : Nat
  userId : String
  user : UserInfo
  school : String
  assigned_sex : Option String
  pronouns : Option String
  alcohol : Bool
  committed : Bool
  day_volume : Option String
  night_volume : Option String
  drugs : Bool
  neatness : Int
  snore : Bool
  social_energy_level : Int
  status : Option String
deriving DecidableEq, Repr

/-- The filter criteria object (`z.infer<typeof ProfileSearchSchema>`):
every field optional; `none` is TypeScript `undefined`/`null`. -/
structure FilterCriteria where
  alcohol : Option Bool := none
  assigned_sex : Option String := none
  committed : Option Bool := none
  day_volume : Option String := none
  drugs : Option Bool := none
  minimum_neatness : Option Int := none
  night_volume : Option String := none
  school : Option String := none
  snore : Option Bool := none
  minimum_social_energy_level : Option Int := none
  status : Option String := none
deriving DecidableEq, Repr

/-- The empty criteria object `{}`: every field unset. -/
def emptyFilter : FilterCriteria := {}

/-- JavaScript truthiness of a nullable string (`!!x`): `null`/`undefined`
and the empty string are falsy, every other string is truthy. -/
def jsTruthyStr : Option String → Bool
  | none => false
  | some s => s ≠ ""

/-- JavaScript `s.toLowerCase()`: lower-case every character (all strings
handled by this page are ASCII, where `Char.toLower` agrees with
JavaScript's case mapping). -/
def jsToLower (s : String) : String := String.mk (s.data.map Char.toLower)

/-- JavaScript `s.includes(sub)`: `sub` occurs as a contiguous substring of
`s` (the empty string is a substring of everything). -/
def jsIncludes (s sub : String) : Bool :=
  decide (List.IsInfix sub.toList s.toList)

/-- One boolean-exclusion check of the filter, e.g. lines 263–268:
`typeof filter.alcohol !== "undefined" && !filter.alcohol && profile.alcohol`.
Returns `true` when the profile is to be excluded on this field. -/
def boolExcl (fv : Option Bool) (pv : Bool) : Bool :=
  match fv with
  | none => false
  | some b => !b && pv

/-- One enum-equality check of the filter, e.g. lines 269–274:
`!!filter.assigned_sex && !!profile.assigned_sex &&
filter.assigned_sex !== profile.assigned_sex`.
Returns `true` when the profile is to be excluded on this field. -/
def enumExcl (fv pv : Option String) : Bool :=
  jsTruthyStr fv && jsTruthyStr pv && fv ≠ pv

/-- One numeric-threshold check of the filter, e.g. line 289:
`(filter.minimum_neatness ?? -10) + 10 > profile.neatness`.
Returns `true` when the profile is to be excluded on this field. -/
def numExcl (fv : Option Int) (pv : Int) : Bool :=
  decide (fv.getD (-10) + 10 > pv)

/-- The free-text check, lines 308–312:
`profile.user.name?.toLowerCase().includes(query.toLowerCase()) ||
 profile.user.email?.toLowerCase().includes(query.toLowerCase()) ||
 profile.school.toLowerCase().includes(query.toLowerCase())`.
A `null` name or email short-circuits its optional chain to `undefined`,
which is falsy in the disjunction. -/
def textMatch (p : Profile) (query : String) : Bool :=
  (match p.user.name with
    | none => false
    | some s => jsIncludes (jsToLower s) (jsToLower query)) ||
  (match p.user.email with
    | none => false
    | some s => jsIncludes (jsToLower s) (jsToLower query)) ||
  jsIncludes (jsToLower p.school) (jsToLower query)

/-- The predicate of `profiles.filter(...)`, lines 262–313, with the checks
in source order; each `if ... return false` becomes an `if ... then false`
branch and the final `return` is the free-text check. -/
def profilePasses (filter : FilterCriteria) (query : String) (p : Profile) : Bool :=
  if boolExcl filter.alcohol p.alcohol then false
  else if enumExcl filter.assigned_sex p.assigned_sex then false
  else if boolExcl filter.committed p.committed then false
  else if enumExcl filter.day_volume p.day_volume then false
  else if boolExcl filter.drugs p.drugs then false
  else if numExcl filter.minimum_neatness p.neatness then false
  else if enumExcl filter.night_volume p.night_volume then false
  else if enumExcl filter.school (some p.school) then false
  else if boolExcl filter.snore p.snore then false
  else if numExcl filter.minimum_social_energy_level p.social_energy_level then false
  else if enumExcl filter.status p.status then false
  else textMatch p query

/-- `filteredProfiles = profiles.filter(profile => ...)`, line 262. -/
def filterProfiles (profiles : List Profile) (query : String)
    (filter : FilterCriteria) : List Profile :=
  profiles.filter (profilePasses filter query)

/-- The conjunction of the eleven structured (non-text) checks, in source
order: a profile passes the structured criteria iff no check excludes it. -/
def structuredPass (filter : FilterCriteria) (p : Profile) : Bool :=
  !boolExcl filter.alcohol p.alcohol &&
  !enumExcl filter.assigned_sex p.assigned_sex &&
  !boolExcl filter.committed p.committed &&
  !enumExcl filter.day_volume p.day_volume &&
  !boolExcl filter.drugs p.drugs &&
  !numExcl filter.minimum_neatness p.neatness &&
  !enumExcl filter.night_volume p.night_volume &&
  !enumExcl filter.school (some p.school) &&
  !boolExcl filter.snore p.snore &&
  !numExcl filter.minimum_social_energy_level p.social_energy_level &&
  !enumExcl filter.status p.status

theorem profilePasses_eq_structured_and_text (f : FilterCriteria) (q : String)
    (p : Profile) :
    profilePasses f q p = (structuredPass f p && textMatch p q) := by
  unfold profilePasses structuredPass
  cases boolExcl f.alcohol p.alcohol <;>
    cases enumExcl f.assigned_sex p.assigned_sex <;>
    cases boolExcl f.committed p.committed <;>
    cases enumExcl f.day_volume p.day_volume <;>
    cases boolExcl f.drugs p.drugs <;>
    cases numExcl f.minimum_neatness p.neatness <;>
    cases enumExcl f.night_volume p.night_volume <;>
    cases enumExcl f.school (some p.school) <;>
    cases boolExcl f.snore p.snore <;>
    cases numExcl f.minimum_social_energy_level p.social_energy_level <;>
    cases enumExcl f.status p.status <;>
    simp

/-! ## Membership action validator (manage page) -/

/-- `Role` enum from the schema (`import { Role } from "@prisma/client"`). -/
inductive Role where
  | ADMIN : Role
  | MEMBER : Role
deriving DecidableEq, Repr

/-- A member entry of `membership.group.members` (fields used on the manage
page: `id`, `role`, `userId`, `user.name`). -/
structure Member where
  id : Nat
  role : Role
  userId : String
  user : UserInfo
deriving DecidableEq, Repr

/-- The group relation carried by a membership. -/
structure Group where
  members : List Member
deriving DecidableEq, Repr

/-- The current user's membership snapshot
(`trpc.membership.getCurrent`). -/
structure Membership where
  id : Nat
  role : Role
  userId : String
  groupId : Nat
  group : Group
deriving DecidableEq, Repr

/-- The Remove button for `member` is enabled iff NOT
`member.role === Role.ADMIN || member.userId === membership.userId`
(lines 63–66 of manage.tsx). -/
def canRemoveMember (membership : Membership) (member : Member) : Bool :=
  !(decide (member.role = Role.ADMIN) || decide (member.userId = membership.userId))

/-- The Delete button is rendered only when `membership.role === Role.ADMIN`
(line 121) and is enabled iff NOT
`membership.role !== Role.ADMIN || membership.group.members.length > 1`
(lines 126–129). -/
def canDeleteGroup (membership : Membership) : Bool :=
  decide (membership.role = Role.ADMIN) &&
  !(decide (membership.role ≠ Role.ADMIN) ||
    decide (membership.group.members.length > 1))

/-- The Leave button is enabled iff NOT `membership.role === Role.ADMIN`
(line 138). -/
def canLeaveGroup (membership : Membership) : Bool :=
  !(decide (membership.role = Role.ADMIN))

/-! ## Error-explicit evaluator

The filter body's only method call on a nullable receiver without an
optional chain is `profile.school.toLowerCase()` (line 311); `school` is
non-nullable, so the call cannot throw.  To make that checkable, the
`E`-suffixed definitions thread an `Except` that errors exactly where a
JavaScript `TypeError` could arise, and we prove the error is unreachable. -/

/-- Calling `.toLowerCase()` on a possibly-null string without an optional
chain: throws a `TypeError` when the receiver is null. -/
def jsToLowerCase : Option String → Except String String
  | none => Except.error "TypeError: null receiver for toLowerCase"
  | some s => Except.ok (jsToLower s)

/-- `textMatch` with the unguarded method call of line 311 made explicit:
`profile.school.toLowerCase()` is `jsToLowerCase (some p.school)` because
the `school` column is non-nullable.  `name` and `email` use optional
chains (`?.`), which short-circuit to a falsy `undefined` instead of
throwing. -/
def textMatchE (p : Profile) (query : String) : Except String Bool :=
  match jsToLowerCase (some p.school) with
  | Except.error e => Except.error e
  | Except.ok sl =>
    Except.ok
      ((match p.user.name with
        | none => false
        | some s => jsIncludes (jsToLower s) (jsToLower query)) ||
      (match p.user.email with
        | none => false
        | some s => jsIncludes (jsToLower s) (jsToLower query)) ||
      jsIncludes sl (jsToLower query))

/-- The filter predicate with explicit error propagation. -/
def profilePassesE (filter : FilterCriteria) (query : String) (p : Profile) :
    Except String Bool :=
  if boolExcl filter.alcohol p.alcohol then Except.ok false
  else if enumExcl filter.assigned_sex p.assigned_sex then Except.ok false
  else if boolExcl filter.committed p.committed then Except.ok false
  else if enumExcl filter.day_volume p.day_volume then Except.ok false
  else if boolExcl filter.drugs p.drugs then Except.ok false
  else if numExcl filter.minimum_neatness p.neatness then Except.ok false
  else if enumExcl filter.night_volume p.night_volume then Except.ok false
  else if enumExcl filter.school (some p.school) then Except.ok false
  else if boolExcl filter.snore p.snore then Except.ok false
  else if numExcl filter.minimum_social_energy_level p.social_energy_level then Except.ok false
  else if enumExcl filter.status p.status then Except.ok false
  else textMatchE p query

/-- `profiles.filter` with explicit error propagation. -/
def filterProfilesE (profiles : List Profile) (query : String)
    (filter : FilterCriteria) : Except String (List Profile) :=
  match profiles with
  | [] => Except.ok []
  | p :: ps =>
    match profilePassesE filter query p with
    | Except.error e => Except.error e
    | Except.ok b =>
      match filterProfilesE ps query filter with
      | Except.error e => Except.error e
      | Except.ok rest => Except.ok (if b then p :: rest else rest)

theorem textMatchE_ok (p : Profile) (q : String) :
    textMatchE p q = Except.ok (textMatch p q) := rfl

theorem profilePassesE_ok (f : FilterCriteria) (q : String) (p : Profile) :
    profilePassesE f q p = Except.ok (profilePasses f q p) := by
  unfold profilePassesE profilePasses
  cases boolExcl f.alcohol p.alcohol <;>
    cases enumExcl f.assigned_sex p.assigned_sex <;>
    cases boolExcl f.committed p.committed <;>
    cases enumExcl f.day_volume p.day_volume <;>
    cases boolExcl f.drugs p.drugs <;>
    cases numExcl f.minimum_neatness p.neatness <;>
    cases enumExcl f.night_volume p.night_volume <;>
    cases enumExcl f.school (some p.school) <;>
    cases boolExcl f.snore p.snore <;>
    cases numExcl f.minimum_social_energy_level p.social_energy_level <;>
    cases enumExcl f.status p.status <;>
    simp [textMatchE_ok]

/-! ## Concrete sample data (for closed instances of the properties) -/

/-- The user of §8's text-query example: name "Alex", email "a\@x.com". -/
def userAlex : UserInfo := { name := some "Alex", email := some "a@x.com", image := none }

/-- A profile at UCLA with neatness 5 and social energy 5, every boolean
attribute false and every nullable enum attribute null. -/
def pAlex : Profile :=
  { id := 1, userId := "u1", user := userAlex, school := "UCLA",
    assigned_sex := none, pronouns := none, alcohol := false,
    committed := false, day_volume := none, night_volume := none,
    drugs := false, neatness := 5, snore := false,
    social_energy_level := 5, status := none }

/-- Like `pAlex` but with `alcohol = true`. -/
def pDrinker : Profile := { pAlex with id := 2, alcohol := true }

/-- A third copy of `pAlex`, for the ordering example. -/
def pThird : Profile := { pAlex with id := 3 }

/-- Like `pAlex` but with a negative neatness score. -/
def pNegNeat : Profile := { pAlex with id := 4, neatness := -1 }

/-- Criteria with only `alcohol: false` set. -/
def filterNoAlcohol : FilterCriteria := { alcohol := some false }

def memberAdminA : Member :=
  { id := 1, role := Role.ADMIN, userId := "ua",
    user := { name := some "A", email := none, image := none } }

def memberPlainB : Member :=
  { id := 2, role := Role.MEMBER, userId := "ub",
    user := { name := some "B", email := none, image := none } }

/-- An ADMIN membership in a one-member group. -/
def mAdmin1 : Membership :=
  { id := 1, role := Role.ADMIN, userId := "ua", groupId := 7,
    group := { members := [memberAdminA] } }

/-- An ADMIN membership in a two-member group. -/
def mAdmin2 : Membership :=
  { id := 1, role := Role.ADMIN, userId := "ua", groupId := 7,
    group := { members := [memberAdminA, memberPlainB] } }

/-- A MEMBER membership in a one-member group. -/
def mMember1 : Membership :=
  { id := 2, role := Role.MEMBER, userId := "ub", groupId := 7,
    group := { members := [memberPlainB] } }

/-! ## Helper lemmas -/

theorem jsToLower_empty : jsToLower "" = "" := rfl

theorem jsIncludes_empty_sub (s : String) : jsIncludes s "" = true := by
  simp [jsIncludes]

theorem data_eq_nil_iff (s : String) : s.data = [] ↔ s = "" := by
  cases s with
  | mk data =>
    constructor
    · intro h
      subst h
      rfl
    · intro h
      exact congrArg String.data h

theorem toList_eq_nil_iff (s : String) : s.toList = [] ↔ s = "" := by
  simpa [String.toList] using data_eq_nil_iff s

theorem jsToLower_eq_empty_iff (s : String) : jsToLower s = "" ↔ s = "" := by
  cases s with
  | mk data =>
    cases data with
    | nil => simp [jsToLower]
    | cons c cs =>
      simp only [jsToLower]
      constructor
      · intro h
        exact absurd (congrArg String.data h) (by simp)
      · intro h
        exact absurd (congrArg String.data h) (by simp)

theorem jsIncludes_of_empty_hay (sub : String) :
    jsIncludes "" sub = true ↔ sub = "" := by
  simp [jsIncludes, List.infix_nil, toList_eq_nil_iff, data_eq_nil_iff]

theorem textMatch_empty_query (p : Profile) : textMatch p "" = true := by
  simp [textMatch, jsToLower_empty, jsIncludes_empty_sub]

theorem jsIncludes_empty_hay_ne (sub : String) (h : sub ≠ "") :
    jsIncludes "" sub = false := by
  cases hb : jsIncludes "" sub with
  | false => rfl
  | true => exact absurd ((jsIncludes_of_empty_hay sub).mp hb) h

/-! ## Claims -/

/-- C1: The numeric threshold checks compute
`threshold = (filter.minimum_X ?? -10) + 10` (for neatness and for social
energy level) and exclude a profile exactly when the profile's score is
strictly below that threshold; an unset filter field yields threshold 0;
and a profile with neatness 5 passes `minimum_neatness: -5` but is
excluded by `minimum_neatness: -4`. -/
theorem C1_numeric_threshold :
    (∀ (fv : Option Int) (pv : Int),
      numExcl fv pv = true ↔ pv < fv.getD (-10) + 10) ∧
    (∀ pv : Int, numExcl none pv = true ↔ pv < 0) ∧
    (∀ (f : FilterCriteria) (q : String) (p : Profile),
      numExcl f.minimum_neatness p.neatness = true → profilePasses f q p = false) ∧
    (∀ (f : FilterCriteria) (q : String) (p : Profile),
      numExcl f.minimum_social_energy_level p.social_energy_level = true →
        profilePasses f q p = false) ∧
    filterProfiles [pAlex] "" { minimum_neatness := some (-5) } = [pAlex] ∧
    filterProfiles [pAlex] "" { minimum_neatness := some (-4) } = [] := by
  refine ⟨?_, ?_, ?_, ?_, by decide, by decide⟩
  · intro fv pv
    simp [numExcl]
  · intro pv
    simp [numExcl]
  · intro f q p h
    rw [profilePasses_eq_structured_and_text]
    simp [structuredPass, h]
  · intro f q p h
    rw [profilePasses_eq_structured_and_text]
    simp [structuredPass, h]

/-- Closed instance of C1's hypothesis-bearing conjuncts: a required
neatness (resp. social energy) threshold of 16 excludes `pAlex`. -/
theorem C1_witness :
    profilePasses { minimum_neatness := some 6 } "" pAlex = false ∧
    profilePasses { minimum_social_energy_level := some 6 } "" pAlex = false :=
  ⟨C1_numeric_threshold.2.2.1 { minimum_neatness := some 6 } "" pAlex (by decide),
   C1_numeric_threshold.2.2.2.1 { minimum_social_energy_level := some 6 } ""
     pAlex (by decide)⟩

/-- C2: A boolean field (alcohol, committed, drugs, snore) excludes a
profile iff the filter sets the field to `false` and the profile's field is
`true`; consequently an included profile was excluded by none of the four
boolean checks. -/
theorem C2_boolean_exclusion :
    (∀ (fv : Option Bool) (pv : Bool),
      boolExcl fv pv = true ↔ fv = some false ∧ pv = true) ∧
    (∀ (f : FilterCriteria) (q : String) (p : Profile),
      profilePasses f q p = true →
      boolExcl f.alcohol p.alcohol = false ∧
      boolExcl f.committed p.committed = false ∧
      boolExcl f.drugs p.drugs = false ∧
      boolExcl f.snore p.snore = false) := by
  constructor
  · intro fv pv
    cases fv with
    | none => simp [boolExcl]
    | some b => cases b <;> cases pv <;> simp [boolExcl]
  · intro f q p h
    rw [profilePasses_eq_structured_and_text, Bool.and_eq_true] at h
    have hs := h.1
    simp only [structuredPass, Bool.and_eq_true, Bool.not_eq_true'] at hs
    obtain ⟨⟨⟨⟨⟨⟨⟨⟨⟨⟨h1, h2⟩, h3⟩, h4⟩, h5⟩, h6⟩, h7⟩, h8⟩, h9⟩, h10⟩, h11⟩ := hs
    exact ⟨h1, h3, h5, h9⟩

/-- Closed instance of C2's hypothesis-bearing conjunct at the empty
filter and `pAlex`. -/
theorem C2_witness :
    boolExcl emptyFilter.alcohol pAlex.alcohol = false ∧
    boolExcl emptyFilter.committed pAlex.committed = false ∧
    boolExcl emptyFilter.drugs pAlex.drugs = false ∧
    boolExcl emptyFilter.snore pAlex.snore = false :=
  C2_boolean_exclusion.2 emptyFilter "" pAlex (by decide)

/-- C7: the delete-group action is permitted iff the membership's role is
ADMIN and the group has at most one member; an ADMIN of a two-member group
and a MEMBER of a one-member group are both refused. -/
theorem C7_can_delete_group :
    (∀ m : Membership,
      canDeleteGroup m = true ↔
        (m.role = Role.ADMIN ∧ m.group.members.length ≤ 1)) ∧
    canDeleteGroup mAdmin1 = true ∧
    canDeleteGroup mAdmin2 = false ∧
    canDeleteGroup mMember1 = false := by
  refine ⟨?_, by decide, by decide, by decide⟩
  intro m
  simp [canDeleteGroup]

/-- C8: the remove-member action is permitted iff the target is not an
ADMIN and is not the acting member; an ADMIN target is always refused, and
removing oneself is always refused. -/
theorem C8_can_remove_member :
    (∀ (m : Membership) (t : Member),
      canRemoveMember m t = true ↔
        (t.role ≠ Role.ADMIN ∧ t.userId ≠ m.userId)) ∧
    (∀ (m : Membership) (t : Member),
      canRemoveMember m { t with role := Role.ADMIN } = false) ∧
    (∀ (m : Membership) (t : Member),
      canRemoveMember m { t with userId := m.userId } = false) := by
  refine ⟨?_, ?_, ?_⟩ <;> intro m t <;> simp [canRemoveMember]

/-- C10: an ADMIN of a group with more than one member can take no exit
action: both delete-group and leave-group are refused. -/
theorem C10_admin_no_exit (m : Membership) (h1 : m.role = Role.ADMIN)
    (h2 : 1 < m.group.members.length) :
    canDeleteGroup m = false ∧ canLeaveGroup m = false := by
  simp [canDeleteGroup, canLeaveGroup, h1, h2]

/-- Closed instance of C10 at the two-member admin membership. -/
theorem C10_witness :
    canDeleteGroup mAdmin2 = false ∧ canLeaveGroup mAdmin2 = false :=
  C10_admin_no_exit mAdmin2 rfl (by decide)

/-- C4: an enum field (assigned_sex, day_volume, night_volume, school,
status) excludes a profile iff both the filter value and the profile value
are present (well-formed enum names are non-empty strings) and they differ;
a null filter value or a null profile value never excludes; and an included
profile was excluded by none of the five enum checks. -/
theorem C4_enum_equality :
    (∀ (fv pv : Option String), fv ≠ some "" → pv ≠ some "" →
      (enumExcl fv pv = true ↔ ∃ a b, fv = some a ∧ pv = some b ∧ a ≠ b)) ∧
    (∀ pv : Option String, enumExcl none pv = false) ∧
    (∀ fv : Option String, enumExcl fv none = false) ∧
    (∀ (f : FilterCriteria) (q : String) (p : Profile),
      profilePasses f q p = true →
      enumExcl f.assigned_sex p.assigned_sex = false ∧
      enumExcl f.day_volume p.day_volume = false ∧
      enumExcl f.night_volume p.night_volume = false ∧
      enumExcl f.school (some p.school) = false ∧
      enumExcl f.status p.status = false) := by
  refine ⟨?_, ?_, ?_, ?_⟩
  · intro fv pv hf hp
    cases fv with
    | none => simp [enumExcl, jsTruthyStr]
    | some a =>
      cases pv with
      | none => simp [enumExcl, jsTruthyStr]
      | some b =>
        have ha : a ≠ "" := fun h => hf (by rw [h])
        have hb : b ≠ "" := fun h => hp (by rw [h])
        simp [enumExcl, jsTruthyStr, ha, hb]
  · intro pv
    simp [enumExcl, jsTruthyStr]
  · intro fv
    cases fv <;> simp [enumExcl, jsTruthyStr]
  · intro f q p h
    rw [profilePasses_eq_structured_and_text, Bool.and_eq_true] at h
    have hs := h.1
    simp only [structuredPass, Bool.and_eq_true, Bool.not_eq_true'] at hs
    obtain ⟨⟨⟨⟨⟨⟨⟨⟨⟨⟨h1, h2⟩, h3⟩, h4⟩, h5⟩, h6⟩, h7⟩, h8⟩, h9⟩, h10⟩, h11⟩ := hs
    exact ⟨h2, h4, h7, h8, h11⟩

/-- Closed instance of C4's hypothesis-bearing conjuncts: two distinct
present school values exclude, and the empty filter's enum checks exclude
nothing on `pAlex`. -/
theorem C4_witness :
    (enumExcl (some "UCLA") (some "MIT") = true ↔
      ∃ a b, (some "UCLA" : Option String) = some a ∧
        (some "MIT" : Option String) = some b ∧ a ≠ b) ∧
    (enumExcl emptyFilter.assigned_sex pAlex.assigned_sex = false ∧
     enumExcl emptyFilter.day_volume pAlex.day_volume = false ∧
     enumExcl emptyFilter.night_volume pAlex.night_volume = false ∧
     enumExcl emptyFilter.school (some pAlex.school) = false ∧
     enumExcl emptyFilter.status pAlex.status = false) :=
  ⟨C4_enum_equality.1 (some "UCLA") (some "MIT") (by decide) (by decide),
   C4_enum_equality.2.2.2 emptyFilter "" pAlex (by decide)⟩

/-- C5 (counterexample): the claim fails as stated.  For the profile
`pNegNeat`, whose neatness score is -1, the empty criteria object still
excludes it: the unset `minimum_neatness` defaults the threshold to
`(-10) + 10 = 0` and `-1 < 0`, so `filterProfiles [pNegNeat] "" {}` is
`[]`, not `[pNegNeat]`. -/
theorem C5_counterexample :
    filterProfiles [pNegNeat] "" emptyFilter = [] ∧
    filterProfiles [pNegNeat] "" emptyFilter ≠ [pNegNeat] := by decide

/-- C5 (amended): for every profile whose neatness and social energy
scores are non-negative, `filterProfiles [P] "" {}` returns `[P]`: with
every filter field unset no criterion excludes such a profile. -/
theorem C5_empty_filter_amended (p : Profile) (h1 : 0 ≤ p.neatness)
    (h2 : 0 ≤ p.social_energy_level) :
    filterProfiles [p] "" emptyFilter = [p] := by
  have hpass : profilePasses emptyFilter "" p = true := by
    rw [profilePasses_eq_structured_and_text]
    have hs : structuredPass emptyFilter p = true := by
      simp [structuredPass, emptyFilter, boolExcl, enumExcl, jsTruthyStr,
        numExcl]
      omega
    rw [hs, textMatch_empty_query]
    rfl
  simp [filterProfiles, List.filter, hpass]

/-- Closed instance of C5's amended statement at `pAlex`. -/
theorem C5_witness : filterProfiles [pAlex] "" emptyFilter = [pAlex] :=
  C5_empty_filter_amended pAlex (by decide) (by decide)

/-- C6: the output of `filterProfiles` is the subsequence of the input
consisting of exactly the profiles satisfying the predicate, in the
original relative order; for [A, B, C] with B rejected the result is
[A, C]. -/
theorem C6_stable_filter :
    (∀ (ps : List Profile) (q : String) (f : FilterCriteria),
      List.Sublist (filterProfiles ps q f) ps) ∧
    (∀ (ps : List Profile) (q : String) (f : FilterCriteria) (x : Profile),
      x ∈ filterProfiles ps q f ↔ x ∈ ps ∧ profilePasses f q x = true) ∧
    (∀ (ps : List Profile) (q : String) (f : FilterCriteria) (x : Profile),
      (filterProfiles ps q f).count x =
        if profilePasses f q x = true then ps.count x else 0) ∧
    filterProfiles [pAlex, pDrinker, pThird] "" filterNoAlcohol =
      [pAlex, pThird] := by
  refine ⟨?_, ?_, ?_, by decide⟩
  · intro ps q f
    exact List.filter_sublist ps
  · intro ps q f x
    exact List.mem_filter
  · intro ps q f x
    by_cases hx : profilePasses f q x = true
    · rw [if_pos hx]
      exact List.count_filter hx
    · rw [if_neg hx]
      refine List.count_eq_zero.mpr ?_
      simp [filterProfiles, List.mem_filter, hx]

/-- C3: for a profile passing all structured criteria, inclusion is decided
by the text check: the lower-cased query must be a substring of the
lower-cased name, email or school; an empty query always passes; a null
name or email behaves exactly like an empty string; and the Alex/UCLA
examples hold. -/
theorem C3_text_query :
    (∀ (f : FilterCriteria) (q : String) (p : Profile),
      structuredPass f p = true →
      (p ∈ filterProfiles [p] q f ↔ textMatch p q = true)) ∧
    (∀ (p : Profile) (q : String),
      textMatch p q =
        (jsIncludes (jsToLower (p.user.name.getD "")) (jsToLower q) ||
         jsIncludes (jsToLower (p.user.email.getD "")) (jsToLower q) ||
         jsIncludes (jsToLower p.school) (jsToLower q))) ∧
    (∀ s sub : String, jsIncludes s sub = true ↔
      ∃ pre post, pre ++ sub.toList ++ post = s.toList) ∧
    (∀ p : Profile, textMatch p "" = true) ∧
    (∀ (p : Profile) (q : String),
      textMatch { p with user := { p.user with name := none } } q =
      textMatch { p with user := { p.user with name := some "" } } q) ∧
    (∀ (p : Profile) (q : String),
      textMatch { p with user := { p.user with email := none } } q =
      textMatch { p with user := { p.user with email := some "" } } q) ∧
    filterProfiles [pAlex] "ale" emptyFilter = [pAlex] ∧
    filterProfiles [pAlex] "zzz" emptyFilter = [] ∧
    filterProfiles [pAlex] "" emptyFilter = [pAlex] := by
  refine ⟨?_, ?_, ?_, textMatch_empty_query, ?_, ?_, by decide, by decide,
    by decide⟩
  · intro f q p h
    simp [filterProfiles, List.mem_filter, profilePasses_eq_structured_and_text,
      h]
  · intro p q
    by_cases hq : jsToLower q = ""
    · cases hn : p.user.name <;> cases he : p.user.email <;>
        simp [textMatch, hn, he, hq, jsIncludes_empty_sub]
    · cases hn : p.user.name <;> cases he : p.user.email <;>
        simp [textMatch, hn, he, jsIncludes_empty_hay_ne _ hq, jsToLower_empty]
  · intro s sub
    exact (decide_eq_true_iff).trans Iff.rfl
  · intro p q
    by_cases hq : jsToLower q = ""
    · cases he : p.user.email <;>
        simp [textMatch, he, hq, jsIncludes_empty_sub]
    · cases he : p.user.email <;>
        simp [textMatch, he, jsIncludes_empty_hay_ne _ hq, jsToLower_empty]
  · intro p q
    by_cases hq : jsToLower q = ""
    · cases hn : p.user.name <;>
        simp [textMatch, hn, hq, jsIncludes_empty_sub]
    · cases hn : p.user.name <;>
        simp [textMatch, hn, jsIncludes_empty_hay_ne _ hq, jsToLower_empty]

/-- Closed instance of C3's hypothesis-bearing conjunct: `pAlex` passes the
empty structured criteria, so its inclusion under query "ale" is exactly the
text check. -/
theorem C3_witness :
    pAlex ∈ filterProfiles [pAlex] "ale" emptyFilter ↔
      textMatch pAlex "ale" = true :=
  C3_text_query.1 emptyFilter "ale" pAlex (by decide)

/-- C9: the filter is total: the error-explicit evaluator (whose only error
branch models a `TypeError` from calling `toLowerCase` on a null receiver)
always returns `Except.ok` of the pure result, for every combination of
present and absent optional fields; and the three permission predicates
always evaluate to a boolean. -/
theorem C9_totality :
    (∀ (ps : List Profile) (q : String) (f : FilterCriteria),
      filterProfilesE ps q f = Except.ok (filterProfiles ps q f)) ∧
    (∀ (m : Membership) (t : Member),
      canRemoveMember m t = true ∨ canRemoveMember m t = false) ∧
    (∀ m : Membership, canDeleteGroup m = true ∨ canDeleteGroup m = false) ∧
    (∀ m : Membership, canLeaveGroup m = true ∨ canLeaveGroup m = false) := by
  refine ⟨?_, ?_, ?_, ?_⟩
  · intro ps q f
    induction ps with
    | nil => rfl
    | cons p ps ih =>
      rw [filterProfilesE, profilePassesE_ok, ih]
      simp [filterProfiles, List.filter_cons]
  · intro m t
    cases canRemoveMember m t <;> simp
  · intro m
    cases canDeleteGroup m <;> simp
  · intro m
    cases canLeaveGroup m <;> simp

end Roomies
